import Mathlib

/-!
Shallow embedding of the Real-Time News Sentiment dashboard (`src/app.py`)
and verification of its specification claims.

The script has four pieces of logic:
* `fetch_news_newsapi` — one HTTP GET; on failure shows an error and returns
  an empty frame; otherwise builds one row per qualifying article.
* `classify_sentiment` — TextBlob polarity per title, fixed thresholds,
  per-title failure defaults to Neutral / 0.5, then writes one parquet batch
  file.
* `load_recent` — 50 most recently modified batch files, skip unparseable
  ones, concatenate, drop duplicate ids keeping the first occurrence, coerce
  `publishedAt` to datetime (unparseable → missing), sort descending with
  missing timestamps last, take the first `n` (default 200).
* the dashboard body, whose fetch-button handler only classifies/persists a
  non-empty fetched frame.

External libraries are parameters of the embedding: TextBlob scoring is an
arbitrary `score : String → Option ℚ` (`none` models a raised exception,
polarity is modelled exactly over `ℚ`), datetime parsing is an arbitrary
`parseDate : String → Option Nat` (`none` models `errors='coerce'` yielding
`NaT`), and `uuid.uuid4()` is a supply `fresh : Nat → String` indexed by
article position.  File modification times are explicit `Nat` fields; Python's
stable `sorted` is `List.insertionSort`, which is stable.
-/

namespace NewsSentiment

/-- The three sentiment labels produced by `classify_sentiment`. -/
inductive Sentiment : Type
  | Positive
  | Negative
  | Neutral
deriving DecidableEq

/-- The threshold mapping in `classify_sentiment` (src/app.py lines 68–75):
`polarity > 0.1` → Positive, `polarity < -0.1` → Negative, else Neutral. -/
def labelOf (p : ℚ) : Sentiment :=
  if p > 1/10 then Sentiment.Positive
  else if p < -(1/10) then Sentiment.Negative
  else Sentiment.Neutral

/-- Normalisation of polarity to a positivity score (src/app.py line 79):
`(polarity + 1) / 2`. -/
def probPos (p : ℚ) : ℚ := (p + 1) / 2

/-- One iteration of the title loop in `classify_sentiment`: score the title;
on success apply the thresholds and normalisation, on a raised exception
(`score _ = none`) default to Neutral / 0.5 (src/app.py lines 62–83). -/
def classifyTitle (score : String → Option ℚ) (title : String) : Sentiment × ℚ :=
  match score title with
  | some p => (labelOf p, probPos p)
  | none => (Sentiment.Neutral, 1/2)

/-- A row built by `fetch_news_newsapi`, before sentiment columns are added.
`id` is `Option String` because Python's `a.get("url", default)` returns
`None` when the `"url"` key is present with value `null`. -/
structure RawRecord where
  id : Option String
  source : String
  title : String
  publishedAt : String
deriving DecidableEq

/-- A full Headline Record, as written to a batch file: the fetched columns
plus `sentiment` and `prob_pos`. -/
structure Record where
  id : Option String
  source : String
  title : String
  publishedAt : String
  sentiment : Sentiment
  prob_pos : ℚ
deriving DecidableEq

/-- Extending one fetched row with the classification columns. -/
def classifyRecord (score : String → Option ℚ) (r : RawRecord) : Record :=
  { id := r.id
    source := r.source
    title := r.title
    publishedAt := r.publishedAt
    sentiment := (classifyTitle score r.title).1
    prob_pos := (classifyTitle score r.title).2 }

/-- One file in the prediction-store directory: its modification time and its
content; `content = none` models a file `pd.read_parquet` fails on. -/
structure BatchFile where
  mtime : Nat
  content : Option (List Record)
deriving DecidableEq

/-- `classify_sentiment` (src/app.py lines 55–91): `None` and no write for an
empty frame; otherwise add the two sentiment columns to every row and append
one new batch file holding exactly this batch to the store. -/
def classify_sentiment (score : String → Option ℚ) (store : List BatchFile)
    (mtime : Nat) (batch : List RawRecord) : Option (List Record) × List BatchFile :=
  if batch.isEmpty then (none, store)
  else
    (some (batch.map (classifyRecord score)),
     store ++ [{ mtime := mtime, content := some (batch.map (classifyRecord score)) }])

/-- An article of the NewsAPI JSON response.  The outer `Option` on `url`
distinguishes an absent `"url"` key (`none`) from a present key whose value
may itself be `null` (`some none`) — exactly the distinction `dict.get`
makes.  `sourceName` is the resolved `source.name` chain, `none` when it
resolves to nothing. -/
structure Article where
  url : Option (Option String)
  sourceName : Option String
  title : Option String
  publishedAt : Option String
deriving DecidableEq

/-- The filter on src/app.py line 42: `if a.get("title") and a.get("title")
!= "[Removed]"`.  Python truthiness drops a missing/null title and the empty
string. -/
def qualifies (a : Article) : Bool :=
  match a.title with
  | some t => decide (t ≠ "") && decide (t ≠ "[Removed]")
  | none => false

/-- The row dict built on src/app.py lines 43–48.  `a.get("url", fresh)`
returns the stored value — even `null` — whenever the key is present, and the
generated token only when the key is absent. -/
def rowOfArticle (freshId : String) (now : String) (a : Article) : RawRecord :=
  { id := match a.url with
          | some v => v
          | none => some freshId
    source := a.sourceName.getD "Unknown"
    title := a.title.getD ""
    publishedAt := a.publishedAt.getD now }

/-- The article loop of `fetch_news_newsapi`, with the uuid supply indexed by
article position (a fresh uuid expression is evaluated per article). -/
def buildRowsFrom (fresh : Nat → String) (now : String) : Nat → List Article → List RawRecord
  | _, [] => []
  | i, a :: rest =>
      if qualifies a then rowOfArticle (fresh i) now a :: buildRowsFrom fresh now (i + 1) rest
      else buildRowsFrom fresh now (i + 1) rest

/-- What `fetch_news_newsapi` leaves behind: the returned frame and which of
`st.error` / `st.warning` it displayed. -/
structure FetchResult where
  rows : List RawRecord
  errorShown : Bool
  warningShown : Bool
deriving DecidableEq

/-- The outcome of the HTTP GET: `failure` covers a raised request exception
or a non-2xx status (which `raise_for_status` turns into an exception);
`success` carries the decoded `articles` list. -/
inductive FetchResponse : Type
  | failure : FetchResponse
  | success : List Article → FetchResponse

/-- `fetch_news_newsapi` (src/app.py lines 22–52): an exception is caught and
produces `st.error` plus an empty frame; an empty `articles` list produces
`st.warning` plus an empty frame; otherwise the qualifying rows. -/
def fetch_news_newsapi (fresh : Nat → String) (now : String) :
    FetchResponse → FetchResult
  | FetchResponse.failure => { rows := [], errorShown := true, warningShown := false }
  | FetchResponse.success articles =>
      if articles.isEmpty then { rows := [], errorShown := false, warningShown := true }
      else { rows := buildRowsFrom fresh now 0 articles
             errorShown := false
             warningShown := false }

/-- The fetch-button handler (src/app.py lines 144–155): fetch, and only when
the fetched frame is non-empty call `classify_sentiment` (which persists the
batch).  Returns the resulting store. -/
def run_fetch_button (score : String → Option ℚ) (fresh : Nat → String) (now : String)
    (mtime : Nat) (store : List BatchFile) (resp : FetchResponse) : List BatchFile :=
  if (fetch_news_newsapi fresh now resp).rows.isEmpty then store
  else (classify_sentiment score store mtime (fetch_news_newsapi fresh now resp).rows).2

/-- A record after `pd.to_datetime(..., errors='coerce')`: `publishedAt` is a
parsed timestamp or `none` (`NaT`). -/
structure LoadedRecord where
  id : Option String
  source : String
  title : String
  publishedAt : Option Nat
  sentiment : Sentiment
  prob_pos : ℚ
deriving DecidableEq

/-- Coercing one record's `publishedAt` with the datetime parser; a parse
failure becomes a missing timestamp. -/
def coerceDate (parseDate : String → Option Nat) (r : Record) : LoadedRecord :=
  { id := r.id
    source := r.source
    title := r.title
    publishedAt := parseDate r.publishedAt
    sentiment := r.sentiment
    prob_pos := r.prob_pos }

/-- File order used by `load_recent`: most recently modified first. -/
def mtimeGE (a b : BatchFile) : Prop := b.mtime ≤ a.mtime

instance : DecidableRel mtimeGE :=
  fun a b => inferInstanceAs (Decidable (b.mtime ≤ a.mtime))

instance : IsTotal BatchFile mtimeGE :=
  ⟨fun a b => Nat.le_total b.mtime a.mtime⟩

instance : IsTrans BatchFile mtimeGE :=
  ⟨fun _ _ _ hab hbc => Nat.le_trans hbc hab⟩

/-- `sorted(glob(...), key=getmtime, reverse=True)[:50]` (src/app.py lines
97–101): all batch files sorted newest first, first 50 kept. -/
def selectFiles (files : List BatchFile) : List BatchFile :=
  (List.insertionSort mtimeGE files).take 50

/-- Comparison used by `sort_values('publishedAt', ascending=False)`:
descending on parsed timestamps, with missing timestamps (`NaT`) placed
last (`na_position` defaults to `'last'`). -/
def dateLE (a b : Option Nat) : Bool :=
  match a, b with
  | some x, some y => decide (y ≤ x)
  | some _, none => true
  | none, some _ => false
  | none, none => true

/-- The row order of the loaded frame: `dateLE` on the `publishedAt` column. -/
def recLE (a b : LoadedRecord) : Prop :=
  dateLE a.publishedAt b.publishedAt = true

instance : DecidableRel recLE :=
  fun a b => inferInstanceAs (Decidable (dateLE a.publishedAt b.publishedAt = true))

instance : IsTotal LoadedRecord recLE := by
  constructor
  intro a b
  simp only [recLE, dateLE]
  rcases a.publishedAt with _ | x <;> rcases b.publishedAt with _ | y <;> simp
  exact Nat.le_total y x

instance : IsTrans LoadedRecord recLE := by
  constructor
  intro a b c hab hbc
  have key : ∀ x y z : Option Nat,
      dateLE x y = true → dateLE y z = true → dateLE x z = true := by
    intro x y z h1 h2
    simp only [dateLE] at *
    rcases x with _ | x <;> rcases y with _ | y <;> rcases z with _ | z <;> simp_all
    omega
  exact key _ _ _ hab hbc

/-- `drop_duplicates(subset=['id'], keep='first')`, with the set of already
seen ids made explicit.  Like pandas, missing ids (`none`) are duplicates of
each other. -/
def dedupAux (seen : List (Option String)) : List Record → List Record
  | [] => []
  | r :: rs =>
      if r.id ∈ seen then dedupAux seen rs
      else r :: dedupAux (r.id :: seen) rs

/-- Drop duplicate ids, keeping the first occurrence (src/app.py line 117). -/
def dedupById (rs : List Record) : List Record := dedupAux [] rs

/-- The column list of the Headline Record schema, written literally in both
empty-result branches of `load_recent` (src/app.py lines 104 and 113) and
carried by every persisted batch. -/
def headlineCols : List String :=
  ["id", "source", "title", "publishedAt", "sentiment", "prob_pos"]

/-- The frame `load_recent` returns: its columns and its rows. -/
structure LoadDF where
  cols : List String
  rows : List LoadedRecord
deriving DecidableEq

/-- Concatenation of the parseable files' records, in file order; unparseable
files are skipped by the `try`/`except` around `pd.read_parquet`. -/
def concatRecords (files : List BatchFile) : List Record :=
  (files.filterMap (fun f => f.content)).flatten

/-- The deduplicated, date-coerced record list `load_recent` computes before
sorting and truncating. -/
def loadedRecords (parseDate : String → Option Nat) (files : List BatchFile) :
    List LoadedRecord :=
  (dedupById (concatRecords (selectFiles files))).map (coerceDate parseDate)

/-- `load_recent` (src/app.py lines 94–120): select the 50 newest files; with
no files at all, or none that parses, return the empty correctly-columned
frame; otherwise concatenate, drop duplicate ids keeping the first, coerce
dates, sort by `publishedAt` descending with `NaT` last, and keep the first
`n` rows. -/
def load_recent (parseDate : String → Option Nat) (files : List BatchFile)
    (n : Nat := 200) : LoadDF :=
  if (selectFiles files).isEmpty then { cols := headlineCols, rows := [] }
  else if ((selectFiles files).filterMap (fun f => f.content)).isEmpty then
    { cols := headlineCols, rows := [] }
  else
    { cols := headlineCols
      rows := (List.insertionSort recLE (loadedRecords parseDate files)).take n }

/-- Replacing an unparseable file by a parseable empty one (and leaving
parseable files alone). -/
def fillFailed (f : BatchFile) : BatchFile :=
  { mtime := f.mtime, content := some (f.content.getD []) }

/-- A sample datetime parser for concrete witnesses: the string length, with
the empty string failing to parse. -/
def lenDate (s : String) : Option Nat :=
  if s.length = 0 then none else some s.length

/-- A sample classified record for concrete witnesses. -/
def wRec : Record :=
  { id := some "a", source := "s", title := "t", publishedAt := "2024",
    sentiment := Sentiment.Positive, prob_pos := 1 }

/-- A sample one-file store for concrete witnesses. -/
def wStore : List BatchFile := [{ mtime := 0, content := some [wRec] }]

/-- An unparseable-date record for the C10 witness. -/
def wRecNoDate : Record :=
  { id := some "b", source := "s2", title := "t2", publishedAt := "",
    sentiment := Sentiment.Neutral, prob_pos := 0 }

/-- A store holding one valid-date and one unparseable-date record. -/
def wStoreMixed : List BatchFile :=
  [{ mtime := 0, content := some [wRec, wRecNoDate] }]

/-- One of the fifty filler records crowding out the shared id. -/
def cxRec (k : Nat) : Record :=
  { id := some (String.mk [Char.ofNat (65 + k)]), source := "s", title := "t",
    publishedAt := "d", sentiment := Sentiment.Neutral, prob_pos := 0 }

/-- First of the two old batch files sharing id `"x"`. -/
def xRec1 : Record :=
  { id := some "x", source := "s", title := "t", publishedAt := "d",
    sentiment := Sentiment.Neutral, prob_pos := 0 }

/-- Second of the two old batch files sharing id `"x"`. -/
def xRec2 : Record :=
  { id := some "x", source := "q", title := "u", publishedAt := "e",
    sentiment := Sentiment.Positive, prob_pos := 1 }

/-- A 52-file store: 50 recent filler files and two older files that share
id `"x"`. -/
def cxStore : List BatchFile :=
  (List.range 50).map (fun k => { mtime := 100 - k, content := some [cxRec k] }) ++
  [{ mtime := 2, content := some [xRec1] }, { mtime := 1, content := some [xRec2] }]

/-! ### Helper lemmas about the embedding -/

/-- Every branch of `load_recent` produces the Headline Record column list. -/
theorem load_cols_eq (pd : String → Option Nat) (files : List BatchFile) (n : Nat) :
    (load_recent pd files n).cols = headlineCols := by
  unfold load_recent
  split_ifs <;> rfl

/-- In every branch, the rows of `load_recent` are the first `n` records of
the sorted, deduplicated, date-coerced concatenation. -/
theorem load_rows_eq (pd : String → Option Nat) (files : List BatchFile) (n : Nat) :
    (load_recent pd files n).rows =
      (List.insertionSort recLE (loadedRecords pd files)).take n := by
  unfold load_recent
  by_cases h1 : (selectFiles files).isEmpty
  · rw [if_pos h1]
    rw [List.isEmpty_iff] at h1
    simp [loadedRecords, concatRecords, h1, dedupById, dedupAux]
  · rw [if_neg h1]
    by_cases h2 : ((selectFiles files).filterMap (fun f => f.content)).isEmpty
    · rw [if_pos h2]
      rw [List.isEmpty_iff] at h2
      simp [loadedRecords, concatRecords, h2, dedupById, dedupAux]
    · rw [if_neg h2]

/-- How many records with a given id survive `dedupAux`: none if the id was
already seen, one if any remaining record carries it, zero otherwise. -/
theorem countP_dedupAux (i : Option String) :
    ∀ (rs : List Record) (seen : List (Option String)),
      (dedupAux seen rs).countP (fun r => decide (r.id = i)) =
        if i ∈ seen then 0
        else if rs.any (fun r => decide (r.id = i)) then 1 else 0
  | [], seen => by simp [dedupAux]
  | r :: rs, seen => by
    by_cases hr : r.id ∈ seen
    · rw [dedupAux, if_pos hr, countP_dedupAux i rs seen]
      by_cases hi : i ∈ seen
      · simp [hi]
      · have hri : ¬ r.id = i := fun h => hi (h ▸ hr)
        simp [hi, hri]
    · rw [dedupAux, if_neg hr]
      by_cases hri : r.id = i
      · rw [List.countP_cons_of_pos _ _ (by simp [hri]),
          countP_dedupAux i rs (r.id :: seen)]
        have hi : ¬ i ∈ seen := fun h => hr (hri ▸ h)
        simp [hri, hi]
      · rw [List.countP_cons_of_neg _ _ (by simp [hri]),
          countP_dedupAux i rs (r.id :: seen)]
        have : (i ∈ r.id :: seen) ↔ i ∈ seen := by
          simp [List.mem_cons]
          intro h
          exact absurd h.symm hri
        rw [if_congr this rfl rfl]
        by_cases hi : i ∈ seen
        · simp [hi]
        · simp [hi, hri]

/-- `drop_duplicates` keeps a record with id `i` exactly once when one
occurs, and none otherwise. -/
theorem countP_dedupById (rs : List Record) (i : Option String) :
    (dedupById rs).countP (fun r => decide (r.id = i)) =
      if rs.any (fun r => decide (r.id = i)) then 1 else 0 := by
  rw [dedupById, countP_dedupAux i rs []]
  simp

/-- Date coercion only rewrites the `publishedAt` column. -/
theorem coerceDate_id (pd : String → Option Nat) (r : Record) :
    (coerceDate pd r).id = r.id := rfl

/-- In a list sorted by the loaded-frame order, all records with a parsed
timestamp precede all records with a missing one. -/
theorem sorted_decomp :
    ∀ l : List LoadedRecord, List.Sorted recLE l →
      l = l.filter (fun r => r.publishedAt.isSome) ++
        l.filter (fun r => r.publishedAt.isNone)
  | [], _ => rfl
  | x :: xs, h => by
    rw [List.sorted_cons] at h
    cases hx : x.publishedAt with
    | some v =>
      have hs : (x :: xs).filter (fun r => r.publishedAt.isSome) =
          x :: xs.filter (fun r => r.publishedAt.isSome) := by
        simp [List.filter_cons, hx]
      have hn : (x :: xs).filter (fun r => r.publishedAt.isNone) =
          xs.filter (fun r => r.publishedAt.isNone) := by
        simp [List.filter_cons, hx]
      rw [hs, hn, List.cons_append]
      exact congrArg (x :: ·) (sorted_decomp xs h.2)
    | none =>
      have hall : ∀ y ∈ xs, y.publishedAt = none := by
        intro y hy
        have := h.1 y hy
        rw [recLE, hx] at this
        cases hyp : y.publishedAt with
        | none => rfl
        | some w => rw [hyp] at this; simp [dateLE] at this
      have h1 : (x :: xs).filter (fun r => r.publishedAt.isSome) = [] := by
        rw [List.filter_eq_nil_iff]
        intro a ha
        rcases List.mem_cons.mp ha with rfl | ha
        · simp [hx]
        · simp [hall a ha]
      have h2 : (x :: xs).filter (fun r => r.publishedAt.isNone) = x :: xs := by
        rw [List.filter_eq_self]
        intro a ha
        rcases List.mem_cons.mp ha with rfl | ha
        · simp [hx]
        · simp [hall a ha]
      rw [h1, h2, List.nil_append]

/-- If no article qualifies, the row-building loop returns no rows. -/
theorem buildRowsFrom_eq_nil (fresh : Nat → String) (now : String) :
    ∀ (articles : List Article) (i : Nat),
      (∀ a ∈ articles, qualifies a = false) →
      buildRowsFrom fresh now i articles = []
  | [], _, _ => rfl
  | a :: rest, i, h => by
    rw [buildRowsFrom, if_neg (by simp [h a (List.mem_cons_self a rest)])]
    exact buildRowsFrom_eq_nil fresh now rest (i + 1)
      (fun b hb => h b (List.mem_cons_of_mem a hb))

/-- `fillFailed` keeps the modification time, so file selection commutes
with it. -/
theorem selectFiles_map_fillFailed (files : List BatchFile) :
    selectFiles (files.map fillFailed) = (selectFiles files).map fillFailed := by
  unfold selectFiles
  rw [show List.insertionSort mtimeGE (files.map fillFailed) =
        (List.insertionSort mtimeGE files).map fillFailed from
      (List.map_insertionSort mtimeGE mtimeGE fillFailed files
        (fun _ _ _ _ => Iff.rfl)).symm,
    ← List.map_take]

/-- The records contributed by the parseable files do not change when the
unparseable files are replaced by empty parseable ones. -/
theorem concatRecords_map_fillFailed (files : List BatchFile) :
    concatRecords (files.map fillFailed) = concatRecords files := by
  induction files with
  | nil => rfl
  | cons f rest ih =>
    unfold concatRecords at ih ⊢
    rw [List.map_cons, List.filterMap_cons, List.filterMap_cons]
    cases hc : f.content with
    | none =>
      simp only [fillFailed, hc, Option.getD_none, List.flatten_cons, List.nil_append]
      exact ih
    | some c =>
      simp only [fillFailed, hc, Option.getD_some, List.flatten_cons]
      rw [ih]

/-- With at most 50 files in the store, file selection is a permutation of
the whole store. -/
theorem selectFiles_perm_of_le (files : List BatchFile) (h : files.length ≤ 50) :
    List.Perm (selectFiles files) files := by
  unfold selectFiles
  rw [List.take_of_length_le (by rw [List.length_insertionSort]; exact h)]
  exact List.perm_insertionSort mtimeGE files

/-! ### The claims -/

/-- Thresholded labelling: Positive exactly above 0.1. -/
theorem labelOf_pos_iff (p : ℚ) : labelOf p = Sentiment.Positive ↔ 1/10 < p := by
  unfold labelOf
  split_ifs with h1 h2
  · exact iff_of_true rfl h1
  · exact iff_of_false (by decide) h1
  · exact iff_of_false (by decide) h1

/-- Thresholded labelling: Negative exactly below -0.1. -/
theorem labelOf_neg_iff (p : ℚ) : labelOf p = Sentiment.Negative ↔ p < -(1/10) := by
  unfold labelOf
  split_ifs with h1 h2
  · exact iff_of_false (by decide) (fun hlt => by linarith)
  · exact iff_of_true rfl h2
  · exact iff_of_false (by decide) h2

/-- Thresholded labelling: Neutral exactly on the closed middle band. -/
theorem labelOf_neutral_iff (p : ℚ) :
    labelOf p = Sentiment.Neutral ↔ (p ≤ 1/10 ∧ -(1/10) ≤ p) := by
  unfold labelOf
  split_ifs with h1 h2
  · exact iff_of_false (by decide) (fun hc => absurd h1 (not_lt.mpr hc.1))
  · exact iff_of_false (by decide) (fun hc => absurd h2 (not_lt.mpr hc.2))
  · exact iff_of_true rfl ⟨not_lt.mp h1, by linarith [not_lt.mp h2]⟩

/-- C1: for every title whose polarity `p ∈ [-1,1]` is computed
successfully, `classify_sentiment` labels it Positive iff `p > 0.1`,
Negative iff `p < -0.1`, Neutral otherwise, and records
`prob_pos = (p+1)/2 ∈ [0,1]`; polarity 0.05 gives Neutral with 0.525,
0.5 gives Positive with 0.75, and -0.3 gives Negative with 0.35. -/
theorem claim_C1_sentiment_mapping :
    (∀ (score : String → Option ℚ) (t : String) (p : ℚ),
        score t = some p → classifyTitle score t = (labelOf p, probPos p)) ∧
    (∀ p : ℚ,
        (labelOf p = Sentiment.Positive ↔ 1/10 < p) ∧
        (labelOf p = Sentiment.Negative ↔ p < -(1/10)) ∧
        (labelOf p = Sentiment.Neutral ↔ (p ≤ 1/10 ∧ -(1/10) ≤ p))) ∧
    (∀ p : ℚ, -1 ≤ p → p ≤ 1 → 0 ≤ probPos p ∧ probPos p ≤ 1) ∧
    (labelOf (5/100) = Sentiment.Neutral ∧ probPos (5/100) = 525/1000) ∧
    (labelOf (5/10) = Sentiment.Positive ∧ probPos (5/10) = 75/100) ∧
    (labelOf (-(3/10)) = Sentiment.Negative ∧ probPos (-(3/10)) = 35/100) := by
  refine ⟨?_, ?_, ?_, ?_, ?_, ?_⟩
  · intro score t p h
    unfold classifyTitle
    rw [h]
  · exact fun p => ⟨labelOf_pos_iff p, labelOf_neg_iff p, labelOf_neutral_iff p⟩
  · intro p h1 h2
    unfold probPos
    constructor <;> linarith
  · exact ⟨(labelOf_neutral_iff _).2 ⟨by norm_num, by norm_num⟩, by norm_num [probPos]⟩
  · exact ⟨(labelOf_pos_iff _).2 (by norm_num), by norm_num [probPos]⟩
  · exact ⟨(labelOf_neg_iff _).2 (by norm_num), by norm_num [probPos]⟩

/-- Witness for C1 at the concrete polarity 0.05. -/
theorem claim_C1_witness :
    ((fun _ : String => some ((5 : ℚ)/100)) "t" = some ((5 : ℚ)/100)) ∧
    classifyTitle (fun _ => some (5/100)) "t" = (labelOf (5/100), probPos (5/100)) ∧
    (-1 ≤ (5 : ℚ)/100 ∧ (5 : ℚ)/100 ≤ 1) ∧
    (0 ≤ probPos (5/100) ∧ probPos (5/100) ≤ 1) :=
  ⟨rfl,
   claim_C1_sentiment_mapping.1 (fun _ => some (5/100)) "t" (5/100) rfl,
   ⟨by norm_num, by norm_num⟩,
   claim_C1_sentiment_mapping.2.2.1 (5/100) (by norm_num) (by norm_num)⟩

/-- C4: a fetch response in which every article's title is missing or
`"[Removed]"` yields an empty batch, the fetch-button handler leaves the
store untouched, and `classify_sentiment` on the empty batch writes
nothing. -/
theorem claim_C4_no_valid_articles (score : String → Option ℚ) (fresh : Nat → String)
    (now : String) (mtime : Nat) (store : List BatchFile) (articles : List Article)
    (h : ∀ a ∈ articles, a.title = none ∨ a.title = some "[Removed]") :
    (fetch_news_newsapi fresh now (FetchResponse.success articles)).rows = [] ∧
    run_fetch_button score fresh now mtime store (FetchResponse.success articles) = store ∧
    classify_sentiment score store mtime [] = (none, store) := by
  have hq : ∀ a ∈ articles, qualifies a = false := by
    intro a ha
    rcases h a ha with ht | ht <;> simp [qualifies, ht]
  have hrows : (fetch_news_newsapi fresh now (FetchResponse.success articles)).rows = [] := by
    simp only [fetch_news_newsapi]
    by_cases he : articles.isEmpty = true
    · rw [if_pos he]
    · rw [if_neg he]
      exact buildRowsFrom_eq_nil fresh now articles 0 hq
  refine ⟨hrows, ?_, rfl⟩
  unfold run_fetch_button
  rw [hrows]
  rfl

/-- Witness for C4: one null-title article and one `"[Removed]"` article. -/
theorem claim_C4_witness :
    (∀ a ∈ ([{ url := some (some "http://a"), sourceName := some "AP",
                title := none, publishedAt := some "d" },
              { url := none, sourceName := none,
                title := some "[Removed]", publishedAt := none }] : List Article),
        a.title = none ∨ a.title = some "[Removed]") ∧
    ((fetch_news_newsapi (fun _ => "uuid") "now"
        (FetchResponse.success
          [{ url := some (some "http://a"), sourceName := some "AP",
             title := none, publishedAt := some "d" },
           { url := none, sourceName := none,
             title := some "[Removed]", publishedAt := none }])).rows = [] ∧
      run_fetch_button (fun _ => none) (fun _ => "uuid") "now" 3
        [{ mtime := 9, content := none }]
        (FetchResponse.success
          [{ url := some (some "http://a"), sourceName := some "AP",
             title := none, publishedAt := some "d" },
           { url := none, sourceName := none,
             title := some "[Removed]", publishedAt := none }]) =
        [{ mtime := 9, content := none }] ∧
      classify_sentiment (fun _ => none) [{ mtime := 9, content := none }] 3 [] =
        (none, [{ mtime := 9, content := none }])) :=
  ⟨by decide,
   claim_C4_no_valid_articles (fun _ => none) (fun _ => "uuid") "now" 3
     [{ mtime := 9, content := none }] _ (by decide)⟩

/-- C5: loading from an empty store returns the empty frame whose columns
are exactly the Headline Record schema. -/
theorem claim_C5_empty_store (pd : String → Option Nat) (n : Nat) :
    load_recent pd [] n = { cols := headlineCols, rows := [] } ∧
    headlineCols = ["id", "source", "title", "publishedAt", "sentiment", "prob_pos"] :=
  ⟨rfl, rfl⟩

/-- C6: a failed or non-2xx HTTP request is caught: `fetch_news_newsapi`
shows the user-visible error and returns the empty frame instead of
propagating. -/
theorem claim_C6_request_failure (fresh : Nat → String) (now : String) :
    fetch_news_newsapi fresh now FetchResponse.failure =
      { rows := [], errorShown := true, warningShown := false } := rfl

/-- C7: in a non-empty batch, a title whose scoring raises gets Neutral and
prob_pos 0.5, every other title is still processed, and the whole classified
batch is persisted as one new file. -/
theorem claim_C7_per_title_default (score : String → Option ℚ) (store : List BatchFile)
    (mtime : Nat) (batch : List RawRecord) (h : batch ≠ []) :
    (classify_sentiment score store mtime batch).1 =
      some (batch.map (classifyRecord score)) ∧
    (classify_sentiment score store mtime batch).2 =
      store ++ [{ mtime := mtime, content := some (batch.map (classifyRecord score)) }] ∧
    (batch.map (classifyRecord score)).length = batch.length ∧
    (∀ r ∈ batch, score r.title = none →
      (classifyRecord score r).sentiment = Sentiment.Neutral ∧
      (classifyRecord score r).prob_pos = 1/2) := by
  have hb : batch.isEmpty = false := by
    cases batch with
    | nil => exact absurd rfl h
    | cons a l => rfl
  refine ⟨by simp [classify_sentiment, hb], by simp [classify_sentiment, hb],
    List.length_map _ _, ?_⟩
  intro r _ hr
  exact ⟨by simp [classifyRecord, classifyTitle, hr], by simp [classifyRecord, classifyTitle, hr]⟩

/-- Witness for C7: a one-title batch whose scorer always raises. -/
theorem claim_C7_witness :
    ([{ id := some "u", source := "CNN", title := "bad day",
        publishedAt := "2024" }] : List RawRecord) ≠ [] ∧
    ((classify_sentiment (fun _ => none) [] 7
        [{ id := some "u", source := "CNN", title := "bad day", publishedAt := "2024" }]).1 =
      some ([{ id := some "u", source := "CNN", title := "bad day",
               publishedAt := "2024" }].map (classifyRecord (fun _ => none))) ∧
    (classify_sentiment (fun _ => none) [] 7
        [{ id := some "u", source := "CNN", title := "bad day", publishedAt := "2024" }]).2 =
      [] ++ [{ mtime := 7,
               content := some ([{ id := some "u", source := "CNN", title := "bad day",
                                   publishedAt := "2024" }].map
                 (classifyRecord (fun _ => none))) }] ∧
    ([{ id := some "u", source := "CNN", title := "bad day",
        publishedAt := "2024" }].map (classifyRecord (fun _ => none))).length =
      ([{ id := some "u", source := "CNN", title := "bad day",
          publishedAt := "2024" }] : List RawRecord).length ∧
    (∀ r ∈ ([{ id := some "u", source := "CNN", title := "bad day",
               publishedAt := "2024" }] : List RawRecord),
        (fun _ : String => (none : Option ℚ)) r.title = none →
        (classifyRecord (fun _ => none) r).sentiment = Sentiment.Neutral ∧
        (classifyRecord (fun _ => none) r).prob_pos = 1/2)) :=
  ⟨by decide,
   claim_C7_per_title_default (fun _ => none) [] 7
     [{ id := some "u", source := "CNN", title := "bad day", publishedAt := "2024" }]
     (by decide)⟩

/-- Two frames with the same columns and the same rows are equal. -/
theorem LoadDF.eq_of (A B : LoadDF) (hc : A.cols = B.cols) (hr : A.rows = B.rows) :
    A = B := by
  cases A
  cases B
  cases hc
  cases hr
  rfl

/-- C2: `load_recent` returns rows sorted by `publishedAt` descending
(missing timestamps last), exactly `min n` (number of deduplicated records)
of them; in particular whenever at least `n` distinct-id records exist
across the selected files it returns exactly `n` rows — for `n = 200`,
exactly 200. -/
theorem claim_C2_load_recent_shape (pd : String → Option Nat) (files : List BatchFile)
    (n : Nat) :
    List.Sorted recLE (load_recent pd files n).rows ∧
    (load_recent pd files n).rows.length = min n (loadedRecords pd files).length ∧
    (n ≤ (loadedRecords pd files).length → (load_recent pd files n).rows.length = n) := by
  refine ⟨?_, ?_, ?_⟩
  · rw [load_rows_eq]
    exact List.Pairwise.sublist (List.take_sublist n _) (List.sorted_insertionSort recLE _)
  · rw [load_rows_eq, List.length_take, List.length_insertionSort]
  · intro hn
    rw [load_rows_eq, List.length_take, List.length_insertionSort]
    omega

/-- Witness for C2 at a one-file store with `n = 1`. -/
theorem claim_C2_witness :
    1 ≤ (loadedRecords lenDate wStore).length ∧
    (load_recent lenDate wStore 1).rows.length = 1 :=
  ⟨by decide, (claim_C2_load_recent_shape lenDate wStore 1).2.2 (by decide)⟩

/-- C8: a selected file that fails to parse is silently skipped — the result
is the same as if that file held an empty parseable batch — and when every
selected file fails to parse the result is the empty correctly-columned
frame; nothing propagates. -/
theorem claim_C8_unparseable_files (pd : String → Option Nat) (files : List BatchFile)
    (n : Nat) :
    load_recent pd (files.map fillFailed) n = load_recent pd files n ∧
    ((∀ f ∈ selectFiles files, f.content = none) →
      load_recent pd files n = { cols := headlineCols, rows := [] }) := by
  constructor
  · have hload : loadedRecords pd (files.map fillFailed) = loadedRecords pd files := by
      unfold loadedRecords
      rw [selectFiles_map_fillFailed, concatRecords_map_fillFailed]
    apply LoadDF.eq_of
    · rw [load_cols_eq, load_cols_eq]
    · rw [load_rows_eq, load_rows_eq, hload]
  · intro hall
    apply LoadDF.eq_of
    · rw [load_cols_eq]
    · rw [load_rows_eq]
      have hcat : concatRecords (selectFiles files) = [] := by
        unfold concatRecords
        rw [List.filterMap_eq_nil_iff.mpr hall]
        rfl
      unfold loadedRecords
      rw [hcat]
      simp [dedupById, dedupAux]

/-- Witness for C8: a store whose single file is unparseable. -/
theorem claim_C8_witness :
    (∀ f ∈ selectFiles [{ mtime := 0, content := none }], f.content = none) ∧
    load_recent lenDate [{ mtime := 0, content := none }] 3 =
      { cols := headlineCols, rows := [] } :=
  ⟨by decide,
   (claim_C8_unparseable_files lenDate [{ mtime := 0, content := none }] 3).2 (by decide)⟩

/-- C9: whenever the `"url"` key is present its value — even `null` — is the
record's id, the generated token is used only when the key is absent, and
load-time deduplication keeps a single record per id, so several null ids
collapse to one. -/
theorem claim_C9_null_url (a : Article) (u now : String) :
    (∀ v : Option String, a.url = some v → (rowOfArticle u now a).id = v) ∧
    (a.url = none → (rowOfArticle u now a).id = some u) ∧
    (∀ (rs : List Record) (i : Option String),
      (dedupById rs).countP (fun r => decide (r.id = i)) =
        if rs.any (fun r => decide (r.id = i)) then 1 else 0) := by
  refine ⟨?_, ?_, fun rs i => countP_dedupById rs i⟩
  · intro v hv
    simp [rowOfArticle, hv]
  · intro hv
    simp [rowOfArticle, hv]

/-- Witness for C9: an article with an explicit null url gets id `none`, and
two stored records with id `none` collapse to one. -/
theorem claim_C9_witness :
    ({ url := some none, sourceName := some "AP", title := some "hello",
       publishedAt := some "d" } : Article).url = some none ∧
    (rowOfArticle "fresh-token" "now"
      { url := some none, sourceName := some "AP", title := some "hello",
        publishedAt := some "d" }).id = none ∧
    (dedupById
        [{ id := none, source := "s1", title := "t1", publishedAt := "p1",
           sentiment := Sentiment.Neutral, prob_pos := 0 },
         { id := none, source := "s2", title := "t2", publishedAt := "p2",
           sentiment := Sentiment.Positive, prob_pos := 1 }]).countP
      (fun r => decide (r.id = none)) = 1 := by
  refine ⟨rfl, ?_, ?_⟩
  · exact (claim_C9_null_url
      { url := some none, sourceName := some "AP", title := some "hello",
        publishedAt := some "d" } "fresh-token" "now").1 none rfl
  · rw [(claim_C9_null_url
      { url := some none, sourceName := some "AP", title := some "hello",
        publishedAt := some "d" } "fresh-token" "now").2.2
      [{ id := none, source := "s1", title := "t1", publishedAt := "p1",
         sentiment := Sentiment.Neutral, prob_pos := 0 },
       { id := none, source := "s2", title := "t2", publishedAt := "p2",
         sentiment := Sentiment.Positive, prob_pos := 1 }] none]
    decide

/-- C10: a record whose `publishedAt` fails parsing is coerced to a missing
timestamp; the descending sort places every such record after every record
with a valid timestamp; hence if any missing-timestamp record survives the
top-`n` cut, no valid-timestamp record was cut — the missing ones are cut
first. -/
theorem claim_C10_missing_dates_last (pd : String → Option Nat)
    (files : List BatchFile) (n : Nat) :
    (∀ r : Record, (coerceDate pd r).publishedAt = pd r.publishedAt) ∧
    List.insertionSort recLE (loadedRecords pd files) =
      (List.insertionSort recLE (loadedRecords pd files)).filter
        (fun r => r.publishedAt.isSome) ++
      (List.insertionSort recLE (loadedRecords pd files)).filter
        (fun r => r.publishedAt.isNone) ∧
    ((∃ r ∈ (load_recent pd files n).rows, r.publishedAt = none) →
      (load_recent pd files n).rows.filter (fun r => r.publishedAt.isSome) =
        (List.insertionSort recLE (loadedRecords pd files)).filter
          (fun r => r.publishedAt.isSome)) := by
  set s := List.insertionSort recLE (loadedRecords pd files) with hs
  have hsorted : List.Sorted recLE s := List.sorted_insertionSort recLE _
  have hdec := sorted_decomp s hsorted
  refine ⟨fun r => rfl, hdec, ?_⟩
  rintro ⟨r, hr, hrnone⟩
  rw [load_rows_eq] at hr ⊢
  rw [← hs] at hr ⊢
  set S := s.filter (fun r => r.publishedAt.isSome) with hS
  set N := s.filter (fun r => r.publishedAt.isNone) with hN
  have hSall : ∀ x ∈ S, x.publishedAt.isSome = true := by
    intro x hx
    exact (List.mem_filter.mp hx).2
  have hNall : ∀ x ∈ N, x.publishedAt = none := by
    intro x hx
    have h2 := (List.mem_filter.mp hx).2
    cases hxp : x.publishedAt with
    | none => rfl
    | some v => rw [hxp] at h2; simp at h2
  have htake : s.take n = S.take n ++ N.take (n - S.length) := by
    conv_lhs => rw [hdec]
    exact List.take_append_eq_append_take
  have hrS : r ∉ S.take n := by
    intro hmem
    have hmem2 : r ∈ S := (List.take_sublist n S).subset hmem
    have := hSall r hmem2
    rw [hrnone] at this
    simp at this
  have hrN : r ∈ N.take (n - S.length) := by
    rw [htake] at hr
    rcases List.mem_append.mp hr with hmem | hmem
    · exact absurd hmem hrS
    · exact hmem
  have hlen : S.length < n := by
    have hne : N.take (n - S.length) ≠ [] := List.ne_nil_of_mem hrN
    have hsub : n - S.length ≠ 0 := by
      intro h0
      rw [h0] at hne
      exact hne rfl
    omega
  rw [htake, List.take_of_length_le (le_of_lt hlen), List.filter_append]
  have h1 : S.filter (fun r => r.publishedAt.isSome) = S :=
    List.filter_eq_self.mpr hSall
  have h2 : (N.take (n - S.length)).filter (fun r => r.publishedAt.isSome) = [] := by
    rw [List.filter_eq_nil_iff]
    intro x hx
    have hxN : x ∈ N := (List.take_sublist _ N).subset hx
    simp [hNall x hxN]
  rw [h1, h2, List.append_nil]

/-- Witness for C10: the loaded mixed store keeps a missing-timestamp row,
so the valid rows of the result are all the valid rows. -/
theorem claim_C10_witness :
    (∃ r ∈ (load_recent lenDate wStoreMixed 5).rows, r.publishedAt = none) ∧
    (load_recent lenDate wStoreMixed 5).rows.filter (fun r => r.publishedAt.isSome) =
      (List.insertionSort recLE (loadedRecords lenDate wStoreMixed)).filter
        (fun r => r.publishedAt.isSome) :=
  ⟨⟨coerceDate lenDate wRecNoDate, by decide, rfl⟩,
   (claim_C10_missing_dates_last lenDate wStoreMixed 5).2.2
     ⟨coerceDate lenDate wRecNoDate, by decide, rfl⟩⟩

/-- C3 (amended): ids are deduplicated at load time — the result of
`load_recent` never holds the same id twice — and it holds a shared id
exactly once provided the store fits in the 50-file selection window, the
deduplicated record count fits in `n`, and some file parsing to a batch with
that id exists. -/
theorem claim_C3_dedup_amended (pd : String → Option Nat) (files : List BatchFile)
    (n : Nat) (i : Option String) :
    (load_recent pd files n).rows.countP (fun r => decide (r.id = i)) ≤ 1 ∧
    (files.length ≤ 50 →
      (loadedRecords pd files).length ≤ n →
      (∃ f ∈ files, ∃ c, f.content = some c ∧ ∃ r ∈ c, r.id = i) →
      (load_recent pd files n).rows.countP (fun r => decide (r.id = i)) = 1) := by
  have hcount : (List.insertionSort recLE (loadedRecords pd files)).countP
      (fun r => decide (r.id = i)) =
      (dedupById (concatRecords (selectFiles files))).countP
        (fun r => decide (r.id = i)) := by
    rw [(List.perm_insertionSort recLE _).countP_eq]
    unfold loadedRecords
    rw [List.countP_map]
    rfl
  constructor
  · rw [load_rows_eq]
    have h1 : ((List.insertionSort recLE (loadedRecords pd files)).take n).countP
        (fun r => decide (r.id = i)) ≤
        (List.insertionSort recLE (loadedRecords pd files)).countP
        (fun r => decide (r.id = i)) :=
      (List.take_sublist n _).countP_le _
    have h2 : (dedupById (concatRecords (selectFiles files))).countP
        (fun r => decide (r.id = i)) ≤ 1 := by
      rw [countP_dedupById]
      split <;> omega
    omega
  · intro h50 hn hfind
    obtain ⟨f, hf, c, hc, r, hr, hri⟩ := hfind
    have hfsel : f ∈ selectFiles files :=
      (selectFiles_perm_of_le files h50).mem_iff.mpr hf
    have hrmem : r ∈ concatRecords (selectFiles files) := by
      unfold concatRecords
      exact List.mem_flatten.mpr ⟨c, List.mem_filterMap.mpr ⟨f, hfsel, hc⟩, hr⟩
    rw [load_rows_eq,
      List.take_of_length_le (by rw [List.length_insertionSort]; exact hn),
      hcount, countP_dedupById,
      if_pos (List.any_eq_true.mpr ⟨r, hrmem, by simp [hri]⟩)]

/-- Witness for the amended C3: two files sharing id `"a"` in a two-file
store, loaded with room to spare. -/
theorem claim_C3_witness :
    (([{ mtime := 0, content := some [wRec] },
       { mtime := 1, content := some [wRec] }] : List BatchFile).length ≤ 50 ∧
      (loadedRecords lenDate
        [{ mtime := 0, content := some [wRec] },
         { mtime := 1, content := some [wRec] }]).length ≤ 5 ∧
      (∃ f ∈ ([{ mtime := 0, content := some [wRec] },
               { mtime := 1, content := some [wRec] }] : List BatchFile),
        ∃ c, f.content = some c ∧ ∃ r ∈ c, r.id = some "a")) ∧
    (load_recent lenDate
        [{ mtime := 0, content := some [wRec] },
         { mtime := 1, content := some [wRec] }] 5).rows.countP
      (fun r => decide (r.id = some "a")) = 1 :=
  ⟨⟨by decide, by decide, ⟨{ mtime := 0, content := some [wRec] }, by decide,
      [wRec], rfl, wRec, by decide, rfl⟩⟩,
   (claim_C3_dedup_amended lenDate
      [{ mtime := 0, content := some [wRec] },
       { mtime := 1, content := some [wRec] }] 5 (some "a")).2
     (by decide) (by decide)
     ⟨{ mtime := 0, content := some [wRec] }, by decide,
      [wRec], rfl, wRec, by decide, rfl⟩⟩

/-- Counterexample to C3 as stated: two batch files of the store share id
`"x"`, yet `load_recent` (default `n = 200`) returns no record with that id
at all — both files fall outside the 50 most recently modified. -/
theorem claim_C3_counterexample :
    (cxStore.countP (fun f =>
        (f.content.getD []).any (fun r => decide (r.id = some "x")))) = 2 ∧
    (load_recent lenDate cxStore 200).rows.countP
      (fun r => decide (r.id = some "x")) = 0 := by
  constructor
  · decide
  · decide

end NewsSentiment
